import Mathlib

/-!
Shallow embedding of the location-normalization and aggregation pipeline of
the jetaasc-events repository (scripts/generate_residence_heatmap.py and
scripts/generate_jet_placement_heatmap.py), together with theorems settling
the specification claims about it.

Conventions of the embedding:
* Python strings are `String` / `List Char`; the regular-expression searches
  of the source are compiled by hand into explicit leftmost-match scanners
  over `List Char`, with Python's `\d`, `\s`, `\w` classes modelled at their
  ASCII meaning (all inputs exercised by the claims are ASCII).
* Coordinates appear in the source as decimal literals with exactly four
  fractional digits; they are embedded exactly as integers scaled by 10^4
  (latitude 34.0522 becomes 340522).
* Python dicts with literal unique keys are embedded as association lists in
  insertion order with first-match lookup; `collections.Counter` increments
  are embedded by `bump` (in-place increment, append-on-miss), preserving
  Python's insertion-ordered iteration.
* Fallible computations are `Option`: a Python expression that raises
  (for instance `mapped*100//total` at `total = 0`, a `ZeroDivisionError`)
  is modelled as `none`.
-/

namespace Heatmap

/-! ### ASCII character classes (Python regex `\d`, `\w`, `\s`) -/

/-- Python regex `\d` at ASCII: a decimal digit. -/
def isDigitChar (c : Char) : Bool := '0' ≤ c && c ≤ '9'

/-- An ASCII letter. -/
def isAsciiLetter (c : Char) : Bool := ('A' ≤ c && c ≤ 'Z') || ('a' ≤ c && c ≤ 'z')

/-- Python regex `\w` at ASCII: letter, digit or underscore. -/
def isWordChar (c : Char) : Bool := isAsciiLetter c || isDigitChar c || c == '_'

/-- Python regex `\s` at ASCII: the six ASCII whitespace characters. -/
def isSpaceChar (c : Char) : Bool :=
  c == ' ' || c == '\t' || c == '\n' || c == '\r' || c == '\x0b' || c == '\x0c'

/-- An uppercase ASCII letter, the class `[A-Z]`. -/
def isUpperAZ (c : Char) : Bool := 'A' ≤ c && c ≤ 'Z'

/-! ### Python `str.strip` -/

/-- `str.strip(chars)`: drop characters satisfying `p` from both ends. -/
def stripBoth (p : Char → Bool) (l : List Char) : List Char :=
  ((l.dropWhile p).reverse.dropWhile p).reverse

/-- `str.strip()` — strip whitespace from both ends (ASCII model). -/
def pythonStrip (l : List Char) : List Char := stripBoth isSpaceChar l

/-- `str.strip('"')`. -/
def stripQuotes (l : List Char) : List Char := stripBoth (fun c => c == '"') l

/-- `str.strip('.')`. -/
def stripDots (l : List Char) : List Char := stripBoth (fun c => c == '.') l

/-! ### Association-list lookup (Python dict access on literal dicts) -/

/-- First-match lookup in an association list; the embedded dicts have
unique keys, so this agrees with Python dict access. -/
def lookupAssoc {α β : Type} [DecidableEq α] : List (α × β) → α → Option β
  | [], _ => none
  | (k, v) :: rest, q => if k = q then some v else lookupAssoc rest q

set_option maxHeartbeats 2000000 in
/-- The `ZIP_COORDS` table of generate_residence_heatmap.py: zip code or
3-digit zip prefix to (latitude, longitude, area name), coordinates scaled
by 10^4. Entries appear in source (insertion) order. -/
def ZIP_COORDS : List (String × Int × Int × String) := [
  ("900", 340522, -1182437, "Downtown LA"),
  ("901", 339425, -1182551, "Inglewood/South LA"),
  ("902", 338153, -1183518, "Torrance/South Bay"),
  ("903", 338958, -1182201, "Compton/Lynwood"),
  ("904", 339017, -1180818, "Cerritos/Norwalk"),
  ("905", 337701, -1181937, "Long Beach"),
  ("906", 337879, -1181489, "Long Beach East"),
  ("907", 337975, -1183223, "San Pedro/Harbor"),
  ("908", 337959, -1181052, "Lakewood/Hawaiian Gardens"),
  ("910", 341808, -1183090, "Glendale/Burbank"),
  ("911", 341425, -1182551, "Glendale/Eagle Rock"),
  ("912", 341478, -1181445, "Pasadena"),
  ("913", 341064, -1180415, "Arcadia/Monrovia"),
  ("914", 340689, -1179391, "San Dimas/La Verne"),
  ("915", 340966, -1177198, "Pomona/Claremont"),
  ("916", 340195, -1181517, "Alhambra/Monterey Park"),
  ("917", 340633, -1182275, "East LA/City Terrace"),
  ("918", 340901, -1178903, "West Covina/Covina"),
  ("919", 341478, -1178648, "Azusa/Glendora"),
  ("920", 327157, -1171611, "San Diego Central"),
  ("921", 328328, -1171713, "San Diego North"),
  ("922", 331959, -1173795, "Oceanside/Carlsbad"),
  ("923", 330114, -1170917, "Escondido/San Marcos"),
  ("924", 326401, -1170842, "Chula Vista/National City"),
  ("925", 327940, -1169625, "El Cajon/La Mesa"),
  ("926", 336846, -1178265, "Irvine/Lake Forest"),
  ("927", 337175, -1178311, "Santa Ana/Orange"),
  ("928", 338366, -1179143, "Anaheim/Fullerton"),
  ("930", 349530, -1204357, "Santa Maria"),
  ("931", 344208, -1196982, "Santa Barbara"),
  ("932", 353733, -1190187, "Bakersfield"),
  ("933", 353733, -1190187, "Bakersfield"),
  ("934", 367378, -1197871, "Fresno"),
  ("935", 367378, -1197871, "Fresno"),
  ("936", 367378, -1197871, "Fresno"),
  ("937", 366002, -1218947, "Monterey/Salinas"),
  ("939", 373382, -1218863, "San Jose"),
  ("940", 377749, -1224194, "San Francisco"),
  ("941", 377749, -1224194, "San Francisco"),
  ("942", 378044, -1222712, "Oakland"),
  ("943", 375485, -1220590, "Fremont/Hayward"),
  ("944", 378716, -1222727, "Berkeley"),
  ("945", 378044, -1222712, "Oakland"),
  ("946", 379577, -1223470, "Richmond/El Cerrito"),
  ("947", 379577, -1223470, "Contra Costa"),
  ("948", 379577, -1223470, "Contra Costa"),
  ("949", 379735, -1225311, "Marin County"),
  ("950", 373382, -1218863, "San Jose"),
  ("951", 339533, -1173962, "Riverside"),
  ("952", 339533, -1173962, "Riverside"),
  ("953", 340922, -1174350, "San Bernardino"),
  ("954", 345362, -1172928, "Victorville/High Desert"),
  ("955", 405865, -1223917, "Redding"),
  ("956", 385816, -1214944, "Sacramento"),
  ("957", 385816, -1214944, "Sacramento"),
  ("958", 385816, -1214944, "Sacramento"),
  ("959", 385816, -1214944, "Sacramento"),
  ("960", 408021, -1241637, "Eureka"),
  ("90004", 340764, -1183090, "Los Feliz"),
  ("90005", 340594, -1183011, "Koreatown"),
  ("90006", 340478, -1182946, "Pico-Union"),
  ("90007", 340259, -1182838, "USC/South LA"),
  ("90008", 340106, -1183401, "Baldwin Hills"),
  ("90010", 340620, -1183152, "Mid-Wilshire"),
  ("90012", 340622, -1182406, "Chinatown/Civic Center"),
  ("90013", 340407, -1182468, "Downtown LA"),
  ("90014", 340407, -1182533, "Fashion District"),
  ("90015", 340370, -1182654, "South Park"),
  ("90016", 340281, -1183520, "West Adams"),
  ("90017", 340522, -1182602, "Downtown West"),
  ("90018", 340281, -1183178, "Jefferson Park"),
  ("90019", 340478, -1183401, "Mid-City"),
  ("90020", 340667, -1183090, "Koreatown North"),
  ("90024", 340633, -1184298, "Westwood"),
  ("90025", 340411, -1184476, "West LA"),
  ("90026", 340781, -1182606, "Echo Park"),
  ("90027", 341017, -1182937, "Los Feliz/Griffith"),
  ("90028", 341017, -1183287, "Hollywood"),
  ("90029", 340900, -1182937, "Thai Town"),
  ("90031", 340781, -1182106, "Lincoln Heights"),
  ("90032", 340781, -1181756, "El Sereno"),
  ("90033", 340481, -1182106, "Boyle Heights"),
  ("90034", 340281, -1183970, "Palms/Cheviot Hills"),
  ("90035", 340533, -1183720, "Miracle Mile"),
  ("90036", 340700, -1183520, "Park La Brea"),
  ("90038", 340900, -1183287, "Hollywood"),
  ("90039", 341117, -1182606, "Silver Lake"),
  ("90041", 341367, -1182106, "Eagle Rock"),
  ("90042", 341117, -1181906, "Highland Park"),
  ("90043", 339906, -1183401, "View Park"),
  ("90044", 339531, -1182901, "Athens"),
  ("90045", 339581, -1183970, "Westchester"),
  ("90046", 341117, -1183670, "West Hollywood"),
  ("90047", 339531, -1183178, "South LA"),
  ("90048", 340750, -1183720, "Beverly Grove"),
  ("90049", 340781, -1184726, "Brentwood"),
  ("90056", 339906, -1183720, "Ladera Heights"),
  ("90057", 340594, -1182751, "Westlake"),
  ("90058", 339906, -1182106, "Vernon"),
  ("90059", 339281, -1182456, "Watts"),
  ("90061", 339206, -1182751, "South LA"),
  ("90062", 340031, -1183090, "South LA"),
  ("90063", 340481, -1181856, "East LA"),
  ("90064", 340281, -1184226, "Rancho Park"),
  ("90065", 341117, -1182256, "Cypress Park"),
  ("90066", 340031, -1184326, "Mar Vista"),
  ("90067", 340533, -1184126, "Century City"),
  ("90068", 341267, -1183287, "Hollywood Hills"),
  ("90069", 340900, -1183820, "West Hollywood"),
  ("90071", 340522, -1182537, "DTLA Financial"),
  ("90077", 341017, -1184476, "Bel Air"),
  ("90094", 339781, -1184476, "Playa Vista"),
  ("90210", 340901, -1184065, "Beverly Hills"),
  ("90211", 340656, -1183865, "Beverly Hills"),
  ("90212", 340578, -1184015, "Beverly Hills"),
  ("90230", 340028, -1183920, "Culver City"),
  ("90232", 340203, -1183970, "Culver City"),
  ("90247", 338911, -1182901, "Gardena"),
  ("90248", 338786, -1183070, "Gardena"),
  ("90249", 339036, -1183178, "Gardena"),
  ("90250", 339161, -1183520, "Hawthorne"),
  ("90260", 338911, -1183520, "Lawndale"),
  ("90266", 338836, -1184076, "Manhattan Beach"),
  ("90274", 337578, -1183870, "Palos Verdes"),
  ("90275", 337453, -1183620, "Rancho Palos Verdes"),
  ("90277", 338286, -1183870, "Redondo Beach"),
  ("90278", 338661, -1183770, "Redondo Beach"),
  ("90291", 339956, -1184726, "Venice"),
  ("90292", 339706, -1184526, "Marina del Rey"),
  ("90293", 339581, -1184576, "Playa del Rey"),
  ("90301", 339506, -1183520, "Inglewood"),
  ("90302", 339631, -1183401, "Inglewood"),
  ("90303", 339381, -1183287, "Inglewood"),
  ("90304", 339256, -1183620, "Lennox"),
  ("90401", 340195, -1184916, "Santa Monica"),
  ("90402", 340370, -1185016, "Santa Monica"),
  ("90403", 340295, -1184866, "Santa Monica"),
  ("90404", 340295, -1184716, "Santa Monica"),
  ("90405", 340045, -1184766, "Santa Monica"),
  ("90501", 338286, -1183070, "Torrance"),
  ("90502", 338411, -1182951, "Torrance"),
  ("90503", 338411, -1183401, "Torrance"),
  ("90504", 338661, -1183287, "Torrance"),
  ("90505", 338161, -1183520, "Torrance"),
  ("90601", 339756, -1180567, "Whittier"),
  ("90602", 339631, -1180317, "Whittier"),
  ("90603", 339381, -1179967, "Whittier"),
  ("90604", 339256, -1180067, "Whittier"),
  ("90605", 339381, -1180317, "Whittier"),
  ("90606", 339756, -1180967, "Whittier"),
  ("90620", 338536, -1180117, "Buena Park"),
  ("90621", 338786, -1179967, "Buena Park"),
  ("90630", 338036, -1180617, "Cypress"),
  ("90631", 339131, -1179517, "La Habra"),
  ("90638", 338911, -1180517, "La Mirada"),
  ("90640", 340031, -1181006, "Montebello"),
  ("90650", 339131, -1180817, "Norwalk"),
  ("90660", 339881, -1180667, "Pico Rivera"),
  ("90670", 338661, -1180817, "Santa Fe Springs"),
  ("90680", 337786, -1179817, "Stanton"),
  ("90701", 338661, -1180567, "Artesia"),
  ("90703", 338661, -1180317, "Cerritos"),
  ("90706", 338911, -1181317, "Bellflower"),
  ("90710", 337911, -1182651, "Harbor City"),
  ("90712", 338536, -1181417, "Lakewood"),
  ("90713", 338411, -1181167, "Lakewood"),
  ("90715", 338411, -1180717, "Lakewood"),
  ("90716", 338286, -1180567, "Hawaiian Gardens"),
  ("90717", 338036, -1182901, "Lomita"),
  ("90720", 337911, -1180767, "Los Alamitos"),
  ("90731", 337411, -1182801, "San Pedro"),
  ("90732", 337536, -1183120, "San Pedro"),
  ("90740", 337536, -1180767, "Seal Beach"),
  ("90744", 337911, -1182651, "Wilmington"),
  ("90745", 338161, -1182651, "Carson"),
  ("90746", 338536, -1182551, "Carson"),
  ("90802", 337661, -1181867, "Long Beach Downtown"),
  ("90803", 337536, -1181367, "Long Beach Belmont"),
  ("90804", 337786, -1181517, "Long Beach"),
  ("90805", 338661, -1181867, "Long Beach North"),
  ("90806", 337911, -1181867, "Long Beach"),
  ("90807", 338286, -1181867, "Long Beach"),
  ("90808", 338286, -1181117, "Long Beach East"),
  ("90810", 338161, -1182201, "Long Beach West"),
  ("90813", 337786, -1181817, "Long Beach"),
  ("90814", 337661, -1181517, "Long Beach Belmont"),
  ("90815", 337911, -1181117, "Long Beach"),
  ("91001", 342017, -1181306, "Altadena"),
  ("91006", 341367, -1180256, "Arcadia"),
  ("91007", 341242, -1180456, "Arcadia"),
  ("91010", 341367, -1179556, "Duarte"),
  ("91011", 342142, -1182006, "La Cañada"),
  ("91016", 341617, -1179956, "Monrovia"),
  ("91020", 342267, -1182406, "Montrose"),
  ("91024", 341742, -1180556, "Sierra Madre"),
  ("91030", 341117, -1181556, "South Pasadena"),
  ("91040", 342517, -1182906, "Sunland"),
  ("91042", 342642, -1182256, "Tujunga"),
  ("91101", 341478, -1181445, "Pasadena"),
  ("91103", 341728, -1181545, "Pasadena"),
  ("91104", 341603, -1181245, "Pasadena"),
  ("91105", 341353, -1181595, "Pasadena"),
  ("91106", 341353, -1181245, "Pasadena"),
  ("91107", 341478, -1180795, "Pasadena"),
  ("91108", 341228, -1180995, "San Marino"),
  ("91201", 341617, -1182906, "Glendale"),
  ("91202", 341617, -1182656, "Glendale"),
  ("91203", 341492, -1182556, "Glendale"),
  ("91204", 341367, -1182556, "Glendale"),
  ("91205", 341367, -1182306, "Glendale"),
  ("91206", 341617, -1182206, "Glendale"),
  ("91207", 341867, -1182606, "Glendale"),
  ("91208", 341992, -1182306, "Glendale"),
  ("91214", 342267, -1182556, "La Crescenta"),
  ("91301", 341367, -1187556, "Agoura Hills"),
  ("91302", 341367, -1186756, "Calabasas"),
  ("91303", 342017, -1186006, "Canoga Park"),
  ("91304", 342267, -1186006, "Canoga Park"),
  ("91306", 342017, -1185556, "Winnetka"),
  ("91307", 341867, -1186506, "West Hills"),
  ("91311", 342642, -1185706, "Chatsworth"),
  ("91316", 341617, -1185156, "Encino"),
  ("91321", 343892, -1185506, "Newhall"),
  ("91324", 342392, -1185406, "Northridge"),
  ("91325", 342517, -1185056, "Northridge"),
  ("91326", 342767, -1185556, "Northridge"),
  ("91330", 342392, -1185256, "Northridge"),
  ("91331", 342767, -1184256, "Pacoima"),
  ("91335", 342017, -1184706, "Reseda"),
  ("91340", 342892, -1184406, "San Fernando"),
  ("91342", 343142, -1184256, "Sylmar"),
  ("91343", 342267, -1184556, "North Hills"),
  ("91344", 342892, -1185256, "Granada Hills"),
  ("91345", 342642, -1184706, "Mission Hills"),
  ("91350", 344267, -1185356, "Santa Clarita"),
  ("91351", 344017, -1184756, "Canyon Country"),
  ("91352", 342267, -1183256, "Sun Valley"),
  ("91354", 344517, -1185606, "Valencia"),
  ("91355", 344142, -1185606, "Valencia"),
  ("91356", 341742, -1185456, "Tarzana"),
  ("91360", 341867, -1188656, "Thousand Oaks"),
  ("91361", 341367, -1188156, "Westlake Village"),
  ("91362", 341617, -1188406, "Thousand Oaks"),
  ("91364", 341617, -1185806, "Woodland Hills"),
  ("91367", 341742, -1186006, "Woodland Hills"),
  ("91377", 341492, -1187756, "Oak Park"),
  ("91381", 344017, -1185756, "Stevenson Ranch"),
  ("91384", 344767, -1186006, "Castaic"),
  ("91401", 341867, -1184256, "Van Nuys"),
  ("91402", 342267, -1184106, "Panorama City"),
  ("91403", 341492, -1184506, "Sherman Oaks"),
  ("91405", 342017, -1184256, "Van Nuys"),
  ("91406", 342017, -1184906, "Van Nuys"),
  ("91411", 341867, -1184506, "Van Nuys"),
  ("91423", 341492, -1184256, "Sherman Oaks"),
  ("91436", 341617, -1184706, "Encino"),
  ("91501", 341867, -1183256, "Burbank"),
  ("91502", 341742, -1183156, "Burbank"),
  ("91504", 342142, -1183256, "Burbank"),
  ("91505", 341867, -1183556, "Burbank"),
  ("91506", 341742, -1183406, "Burbank"),
  ("91601", 341742, -1183806, "North Hollywood"),
  ("91602", 341617, -1183606, "North Hollywood"),
  ("91604", 341492, -1183906, "Studio City"),
  ("91605", 342017, -1183906, "North Hollywood"),
  ("91606", 341867, -1183906, "North Hollywood"),
  ("91607", 341617, -1184006, "Valley Village"),
  ("91608", 341367, -1183656, "Universal City"),
  ("91702", 341117, -1178856, "Azusa"),
  ("91706", 340831, -1179517, "Baldwin Park"),
  ("91709", 340206, -1177617, "Chino Hills"),
  ("91710", 340031, -1176867, "Chino"),
  ("91711", 340956, -1177117, "Claremont"),
  ("91722", 340956, -1179317, "Covina"),
  ("91723", 340831, -1178867, "Covina"),
  ("91724", 341081, -1178567, "Covina"),
  ("91730", 341206, -1175717, "Rancho Cucamonga"),
  ("91731", 340831, -1180506, "El Monte"),
  ("91732", 340581, -1180256, "El Monte"),
  ("91733", 340456, -1180717, "South El Monte"),
  ("91740", 341206, -1178067, "Glendora"),
  ("91741", 341456, -1178267, "Glendora"),
  ("91744", 340331, -1179417, "La Puente"),
  ("91745", 340081, -1179767, "Hacienda Heights"),
  ("91746", 340456, -1179717, "La Puente"),
  ("91748", 339906, -1179117, "Rowland Heights"),
  ("91750", 341081, -1177717, "La Verne"),
  ("91754", 340456, -1181256, "Monterey Park"),
  ("91755", 340581, -1181456, "Monterey Park"),
  ("91761", 340456, -1175917, "Ontario"),
  ("91762", 340706, -1176217, "Ontario"),
  ("91763", 340706, -1176867, "Montclair"),
  ("91764", 340706, -1175617, "Ontario"),
  ("91765", 340206, -1178267, "Diamond Bar"),
  ("91766", 340581, -1177517, "Pomona"),
  ("91767", 340831, -1177317, "Pomona"),
  ("91768", 340581, -1176867, "Pomona"),
  ("91770", 340706, -1180756, "Rosemead"),
  ("91773", 341206, -1178467, "San Dimas"),
  ("91775", 341081, -1181056, "San Gabriel"),
  ("91776", 340956, -1180806, "San Gabriel"),
  ("91780", 341206, -1180256, "Temple City"),
  ("91784", 341456, -1176917, "Upland"),
  ("91786", 341206, -1176317, "Upland"),
  ("91789", 340206, -1178667, "Walnut"),
  ("91790", 340456, -1179117, "West Covina"),
  ("91791", 340706, -1179067, "West Covina"),
  ("91792", 340206, -1179067, "West Covina"),
  ("91801", 340956, -1181256, "Alhambra"),
  ("91803", 340706, -1181506, "Alhambra"),
  ("850", 334484, -1120740, "Phoenix"),
  ("851", 334484, -1120740, "Phoenix"),
  ("852", 334152, -1118315, "Mesa/Tempe"),
  ("853", 333062, -1118413, "Chandler/Gilbert"),
  ("856", 322226, -1109747, "Tucson"),
  ("857", 322226, -1109747, "Tucson"),
  ("859", 348697, -1117610, "Flagstaff/Sedona"),
  ("860", 334942, -1119261, "Scottsdale"),
  ("863", 336189, -1123679, "Glendale/Peoria"),
  ("92101", 327197, -1171628, "Downtown SD"),
  ("92102", 327097, -1171228, "Golden Hill"),
  ("92103", 327497, -1171628, "Hillcrest"),
  ("92104", 327497, -1171228, "North Park"),
  ("92105", 327397, -1170828, "City Heights"),
  ("92106", 327197, -1172328, "Point Loma"),
  ("92107", 327397, -1172528, "Ocean Beach"),
  ("92108", 327697, -1171328, "Mission Valley"),
  ("92109", 327897, -1172528, "Pacific Beach"),
  ("92110", 327597, -1172028, "Morena/Bay Park"),
  ("92111", 328097, -1171628, "Clairemont"),
  ("92113", 326897, -1171228, "Logan Heights"),
  ("92114", 326997, -1170528, "Encanto"),
  ("92115", 327597, -1170628, "College Area"),
  ("92116", 327597, -1171228, "Normal Heights"),
  ("92117", 328297, -1172028, "Clairemont Mesa"),
  ("92118", 326797, -1171828, "Coronado"),
  ("92119", 327997, -1170228, "San Carlos"),
  ("92120", 327897, -1170628, "Grantville"),
  ("92121", 329097, -1172028, "Sorrento Valley"),
  ("92122", 328597, -1172128, "University City"),
  ("92123", 328097, -1171228, "Kearny Mesa"),
  ("92124", 328297, -1170928, "Tierrasanta"),
  ("92126", 329097, -1171428, "Mira Mesa"),
  ("92127", 330197, -1170828, "Rancho Bernardo"),
  ("92128", 330197, -1170528, "Rancho Bernardo"),
  ("92129", 329697, -1171228, "Rancho Peñasquitos"),
  ("92130", 329597, -1172228, "Carmel Valley"),
  ("92131", 329297, -1170828, "Scripps Ranch"),
  ("92134", 327297, -1171428, "Naval Medical"),
  ("92136", 326797, -1171228, "Naval Station"),
  ("92139", 326697, -1170528, "Paradise Hills"),
  ("92154", 325797, -1170728, "Otay Mesa"),
  ("92602", 337397, -1177928, "Irvine"),
  ("92603", 336297, -1177828, "Irvine"),
  ("92604", 336897, -1178228, "Irvine"),
  ("92606", 336997, -1178428, "Irvine"),
  ("92612", 336597, -1178328, "Irvine"),
  ("92614", 336797, -1178628, "Irvine"),
  ("92617", 336397, -1178428, "Irvine"),
  ("92618", 336497, -1177428, "Irvine"),
  ("92620", 337097, -1177628, "Irvine"),
  ("92626", 336897, -1179028, "Costa Mesa"),
  ("92627", 336497, -1179228, "Costa Mesa"),
  ("92629", 334597, -1176628, "Dana Point"),
  ("92630", 336397, -1176728, "Lake Forest"),
  ("92637", 336097, -1177028, "Laguna Woods"),
  ("92646", 336597, -1179728, "Huntington Beach"),
  ("92647", 337197, -1179928, "Huntington Beach"),
  ("92648", 336897, -1179728, "Huntington Beach"),
  ("92649", 337297, -1180428, "Huntington Beach"),
  ("92651", 335497, -1177828, "Laguna Beach"),
  ("92653", 335997, -1176928, "Laguna Hills"),
  ("92655", 336997, -1179428, "Midway City"),
  ("92656", 335897, -1177128, "Aliso Viejo"),
  ("92657", 335997, -1178528, "Newport Coast"),
  ("92660", 336297, -1178928, "Newport Beach"),
  ("92661", 336097, -1178928, "Newport Beach"),
  ("92662", 336097, -1179128, "Newport Beach"),
  ("92663", 336197, -1179328, "Newport Beach"),
  ("92672", 334297, -1176228, "San Clemente"),
  ("92673", 334497, -1176128, "San Clemente"),
  ("92675", 335497, -1176628, "San Juan Capistrano"),
  ("92677", 335197, -1177128, "Laguna Niguel"),
  ("92679", 335997, -1176328, "Coto de Caza"),
  ("92683", 337497, -1179928, "Westminster"),
  ("92688", 336097, -1176328, "Rancho Santa Margarita"),
  ("92691", 335897, -1176528, "Mission Viejo"),
  ("92692", 336197, -1176428, "Mission Viejo"),
  ("92694", 335597, -1176028, "Ladera Ranch"),
  ("92701", 337497, -1178628, "Santa Ana"),
  ("92702", 337097, -1178628, "Santa Ana"),
  ("92703", 337497, -1179028, "Santa Ana"),
  ("92704", 337097, -1179028, "Santa Ana"),
  ("92705", 337497, -1178128, "Santa Ana"),
  ("92706", 337697, -1178828, "Santa Ana"),
  ("92707", 337097, -1178428, "Santa Ana"),
  ("92708", 337097, -1179528, "Fountain Valley"),
  ("92780", 337397, -1178228, "Tustin"),
  ("92782", 337597, -1177728, "Tustin"),
  ("92801", 338397, -1179328, "Anaheim"),
  ("92802", 338097, -1179228, "Anaheim"),
  ("92804", 338197, -1179728, "Anaheim"),
  ("92805", 338397, -1179028, "Anaheim"),
  ("92806", 338397, -1178628, "Anaheim"),
  ("92807", 338497, -1177928, "Anaheim"),
  ("92808", 338697, -1177428, "Anaheim Hills"),
  ("92821", 339297, -1178928, "Brea"),
  ("92823", 339197, -1178228, "Brea"),
  ("92831", 338797, -1179228, "Fullerton"),
  ("92832", 338697, -1179428, "Fullerton"),
  ("92833", 338697, -1179728, "Fullerton"),
  ("92835", 339097, -1179228, "Fullerton"),
  ("92840", 337497, -1179628, "Garden Grove"),
  ("92841", 337897, -1179928, "Garden Grove"),
  ("92843", 337597, -1179228, "Garden Grove"),
  ("92844", 337697, -1179728, "Garden Grove"),
  ("92845", 337897, -1179528, "Garden Grove"),
  ("92861", 337897, -1178128, "Villa Park"),
  ("92865", 338297, -1178428, "Orange"),
  ("92866", 337897, -1178528, "Orange"),
  ("92867", 338197, -1178128, "Orange"),
  ("92868", 337897, -1178828, "Orange"),
  ("92869", 338097, -1177728, "Orange"),
  ("92870", 338997, -1178628, "Placentia"),
  ("92886", 339197, -1177928, "Yorba Linda"),
  ("92887", 338897, -1177428, "Yorba Linda")]

/-- The `PREFECTURE_COORDS` table of generate_jet_placement_heatmap.py:
prefecture key to (latitude, longitude, display name), coordinates scaled
by 10^4, in source order. -/
def PREFECTURE_COORDS : List (String × Int × Int × String) := [
  ("Hokkaido", 430642, 1413469, "Hokkaido"),
  ("Aomori", 408244, 1407400, "Aomori"),
  ("Iwate", 397036, 1411527, "Iwate"),
  ("Miyagi", 382688, 1408721, "Miyagi"),
  ("Akita", 397186, 1401024, "Akita"),
  ("Yamagata", 382404, 1403633, "Yamagata"),
  ("Fukushima", 377500, 1404678, "Fukushima"),
  ("Ibaraki", 363418, 1404468, "Ibaraki"),
  ("Tochigi", 365658, 1398836, "Tochigi"),
  ("Gunma", 363912, 1390608, "Gunma"),
  ("Saitama", 358617, 1396455, "Saitama"),
  ("Chiba", 356050, 1401233, "Chiba"),
  ("Tokyo", 356762, 1396503, "Tokyo"),
  ("Kanagawa", 354478, 1396425, "Kanagawa"),
  ("Niigata", 379026, 1390236, "Niigata"),
  ("Toyama", 366953, 1372113, "Toyama"),
  ("Ishikawa", 365947, 1366256, "Ishikawa"),
  ("Fukui", 360652, 1362216, "Fukui"),
  ("Yamanashi", 356642, 1385684, "Yamanashi"),
  ("Nagano", 366513, 1381810, "Nagano"),
  ("Gifu", 353912, 1367223, "Gifu"),
  ("Shizuoka", 349769, 1383831, "Shizuoka"),
  ("Aichi", 351802, 1369066, "Aichi"),
  ("Mie", 347303, 1365086, "Mie"),
  ("Shiga", 350045, 1358686, "Shiga"),
  ("Kyoto", 350116, 1357681, "Kyoto"),
  ("Osaka", 346937, 1355023, "Osaka"),
  ("Hyogo", 346913, 1351830, "Hyogo"),
  ("Nara", 346851, 1358329, "Nara"),
  ("Wakayama", 342260, 1351675, "Wakayama"),
  ("Tottori", 355039, 1342381, "Tottori"),
  ("Shimane", 354723, 1330505, "Shimane"),
  ("Okayama", 346618, 1339344, "Okayama"),
  ("Hiroshima", 343853, 1324553, "Hiroshima"),
  ("Yamaguchi", 341859, 1314714, "Yamaguchi"),
  ("Tokushima", 340658, 1345593, "Tokushima"),
  ("Kagawa", 343401, 1340434, "Kagawa"),
  ("Ehime", 338416, 1327657, "Ehime"),
  ("Kochi", 335597, 1335311, "Kochi"),
  ("Fukuoka", 335904, 1304017, "Fukuoka"),
  ("Saga", 332494, 1302988, "Saga"),
  ("Nagasaki", 327448, 1298737, "Nagasaki"),
  ("Kumamoto", 327898, 1307417, "Kumamoto"),
  ("Oita", 332382, 1316126, "Oita"),
  ("Miyazaki", 319077, 1314202, "Miyazaki"),
  ("Kagoshima", 315602, 1305581, "Kagoshima"),
  ("Okinawa", 262124, 1276809, "Okinawa")]

/-- The `STATE_ABBREV` table of generate_residence_heatmap.py. -/
def STATE_ABBREV : List (String × String) := [
  ("AL", "Alabama"),
  ("AK", "Alaska"),
  ("AZ", "Arizona"),
  ("AR", "Arkansas"),
  ("CA", "California"),
  ("CO", "Colorado"),
  ("CT", "Connecticut"),
  ("DE", "Delaware"),
  ("FL", "Florida"),
  ("GA", "Georgia"),
  ("HI", "Hawaii"),
  ("ID", "Idaho"),
  ("IL", "Illinois"),
  ("IN", "Indiana"),
  ("IA", "Iowa"),
  ("KS", "Kansas"),
  ("KY", "Kentucky"),
  ("LA", "Louisiana"),
  ("ME", "Maine"),
  ("MD", "Maryland"),
  ("MA", "Massachusetts"),
  ("MI", "Michigan"),
  ("MN", "Minnesota"),
  ("MS", "Mississippi"),
  ("MO", "Missouri"),
  ("MT", "Montana"),
  ("NE", "Nebraska"),
  ("NV", "Nevada"),
  ("NH", "New Hampshire"),
  ("NJ", "New Jersey"),
  ("NM", "New Mexico"),
  ("NY", "New York"),
  ("NC", "North Carolina"),
  ("ND", "North Dakota"),
  ("OH", "Ohio"),
  ("OK", "Oklahoma"),
  ("OR", "Oregon"),
  ("PA", "Pennsylvania"),
  ("RI", "Rhode Island"),
  ("SC", "South Carolina"),
  ("SD", "South Dakota"),
  ("TN", "Tennessee"),
  ("TX", "Texas"),
  ("UT", "Utah"),
  ("VT", "Vermont"),
  ("VA", "Virginia"),
  ("WA", "Washington"),
  ("WV", "West Virginia"),
  ("WI", "Wisconsin"),
  ("WY", "Wyoming"),
  ("DC", "District of Columbia")]

/-- The `PREFECTURE_ALIASES` table of generate_jet_placement_heatmap.py. -/
def PREFECTURE_ALIASES : List (String × String) := [
  ("Tokyo Metropolitan Government東京都", "Tokyo"),
  ("Hyogo Pref.兵庫県", "Hyogo"),
  ("Oita Pref.大分県", "Oita"),
  ("Yamanashi Pref.山梨県", "Yamanashi"),
  ("Osaka Pref.大阪府", "Osaka"),
  ("Fukuoka Pref.福岡県", "Fukuoka"),
  ("Nagano Pref.長野県", "Nagano"),
  ("Aichi Pref.愛知県", "Aichi"),
  ("Kyoto Pref.京都府", "Kyoto"),
  ("Saitama Pref.埼玉県", "Saitama"),
  ("Chiba Pref.千葉県", "Chiba"),
  ("Kanagawa Pref.神奈川県", "Kanagawa")]

/-! ### Region Normalizer (`normalize_prefecture`) -/

/-- Python `needle in hay`: contiguous-substring test. -/
def isSubstr (needle : List Char) : List Char → Bool
  | [] => needle.isEmpty
  | c :: t => needle.isPrefixOf (c :: t) || isSubstr needle t

/-- The containment loop of `normalize_prefecture`: first key `known` with
`known.lower() in pref.lower() or pref.lower() in known.lower()`, in table
iteration order. -/
def firstContain (p : List Char) : List String → Option String
  | [] => none
  | k :: rest =>
    if isSubstr (k.toList.map Char.toLower) (p.map Char.toLower)
        || isSubstr (p.map Char.toLower) (k.toList.map Char.toLower) then
      some k
    else firstContain p rest

/-- `normalize_prefecture` of generate_jet_placement_heatmap.py: sentinel
check, strip whitespace and quotes, exact alias lookup, then substring
containment against the prefecture keys. -/
def normalize_prefecture (pref : String) : Option String :=
  if pref = "" ∨ pythonStrip pref.toList = [] ∨ pref = "N/A" then none
  else
    match lookupAssoc PREFECTURE_ALIASES (String.mk (stripQuotes (pythonStrip pref.toList))) with
    | some v => some v
    | none => firstContain (stripQuotes (pythonStrip pref.toList)) (PREFECTURE_COORDS.map Prod.fst)

/-! ### Address Parser (`parse_address`)

The three `re.search` calls of the source are compiled into leftmost-match
scanners.  `zipScan` is the search for `\b(\d{5})\b` on the raw address,
`stateScan` the search for `\b([A-Z]{2})\s+\d{5}` on the uppercased address,
and `cityScan` the search for `([A-Za-z\s\.]+?)\s+<ST>\s+\d{5}` (IGNORECASE)
on the raw address.  Each scanner carries the previous character so the `\b`
word-boundary condition can be tested. -/

/-- A `\b` boundary holds before the current position: start of string or a
non-word previous character. -/
def boundaryOk : Option Char → Bool
  | none => true
  | some c => !isWordChar c

/-- If the list starts with five digits, return them and the remainder. -/
def takeFiveDigits : List Char → Option (List Char × List Char)
  | a :: b :: c :: d :: e :: rest =>
    if [a, b, c, d, e].all isDigitChar then some ([a, b, c, d, e], rest) else none
  | _ => none

/-- Leftmost match of `\b(\d{5})\b`: five digits with word boundaries on
both sides. -/
def zipScan (prev : Option Char) : List Char → Option (List Char)
  | [] => none
  | c :: rest =>
    match takeFiveDigits (c :: rest) with
    | some (z, after) =>
      if boundaryOk prev && (match after with | [] => true | a :: _ => !isWordChar a) then
        some z
      else zipScan (some c) rest
    | none => zipScan (some c) rest

/-- `\s+\d{5}` matches at the head of the list: a nonempty whitespace run
followed by five digits (`\s` and `\d` are disjoint, so the greedy run is
the only candidate). -/
def wsThenFiveDigits (l : List Char) : Bool :=
  !(l.takeWhile isSpaceChar).isEmpty && (takeFiveDigits (l.dropWhile isSpaceChar)).isSome

/-- Leftmost match of `\b([A-Z]{2})\s+\d{5}`, returning the two letters. -/
def stateScan (prev : Option Char) : List Char → Option (List Char)
  | [] => none
  | [_] => none
  | a :: b :: rest =>
    if boundaryOk prev && isUpperAZ a && isUpperAZ b && wsThenFiveDigits rest then
      some [a, b]
    else stateScan (some a) (b :: rest)

/-- The character class `[A-Za-z\s\.]` of the city pattern. -/
def cityClassChar (c : Char) : Bool := isAsciiLetter c || isSpaceChar c || c == '.'

/-- `\s+<s1s2>\s+\d{5}` (IGNORECASE) matches at the head of the list. -/
def cityTail (s1 s2 : Char) (l : List Char) : Bool :=
  !(l.takeWhile isSpaceChar).isEmpty &&
    match l.dropWhile isSpaceChar with
    | x :: y :: rest2 =>
      x.toUpper == s1 && y.toUpper == s2 && wsThenFiveDigits rest2
    | _ => false

/-- At a fixed start, the non-greedy group `([A-Za-z\s\.]+?)` grows one
class character at a time until `cityTail` matches the remainder; `acc`
holds the group read so far, reversed. -/
def cityGrow (s1 s2 : Char) (acc : List Char) : List Char → Option (List Char)
  | [] => none
  | c :: rest =>
    if cityClassChar c then
      if cityTail s1 s2 rest then some ((c :: acc).reverse)
      else cityGrow s1 s2 (c :: acc) rest
    else none

/-- Leftmost match of the city pattern: try each start position in order. -/
def cityScan (s1 s2 : Char) : List Char → Option (List Char)
  | [] => none
  | c :: rest =>
    match cityGrow s1 s2 [] (c :: rest) with
    | some g => some g
    | none => cityScan s1 s2 rest

/-- The zip-code component of `parse_address`. -/
def zipOf (l : List Char) : Option String := (zipScan none l).map String.mk

/-- The state-code component of `parse_address`: the scanned token is kept
only when it is a key of `STATE_ABBREV`. -/
def stateOf (l : List Char) : Option String :=
  match stateScan none (l.map Char.toUpper) with
  | none => none
  | some t =>
    if (lookupAssoc STATE_ABBREV (String.mk t)).isSome then some (String.mk t) else none

/-- The city component of `parse_address`: `group(1).strip().strip('.')`. -/
def cityOf (st : String) (l : List Char) : Option String :=
  match st.toList with
  | [s1, s2] => (cityScan s1 s2 l).map (fun g => String.mk (stripDots (pythonStrip g)))
  | _ => none

/-- `parse_address` of generate_residence_heatmap.py, returning
`(city, state, zip_code)`. -/
def parse_address (address : String) : Option String × Option String × Option String :=
  if address = "" ∨ pythonStrip address.toList = [] then (none, none, none)
  else
    (match stateOf address.toList with
     | some s => cityOf s address.toList
     | none => none,
     stateOf address.toList,
     zipOf address.toList)

/-! ### Postal Resolver (`get_coords`) -/

/-- `get_coords` of generate_residence_heatmap.py: exact zip lookup first,
then the 3-digit prefix, else unresolved.  The `state` argument is accepted
and ignored, as in the source. -/
def get_coords (zip_code : Option String) (state : Option String) :
    Option (Int × Int × String) :=
  match zip_code with
  | none => none
  | some z =>
    if z = "" then none
    else
      match lookupAssoc ZIP_COORDS z with
      | some e => some e
      | none => lookupAssoc ZIP_COORDS (String.mk (z.toList.take 3))

/-! ### Aggregator (the `main` loops) -/

/-- A `locations` dict value: `{'count', 'name', 'lat', 'lng'}`. -/
structure LocationBucket where
  count : Nat
  name : String
  lat : Int
  lng : Int
deriving DecidableEq

/-- Aggregation state of the jet-placement `main` loop. -/
structure JState where
  total : Nat
  mapped : Nat
  prefectures : List (String × Nat)
  locations : List ((Int × Int) × LocationBucket)
deriving DecidableEq

/-- Aggregation state of the residence `main` loop. -/
structure RState where
  total : Nat
  parsed : Nat
  geocoded : Nat
  states : List (String × Nat)
  locations : List ((Int × Int) × LocationBucket)
deriving DecidableEq

/-- `Counter` increment `c[k] += 1`: bump in place, append on miss (which
preserves first-seen insertion order). -/
def bump (k : String) : List (String × Nat) → List (String × Nat)
  | [] => [(k, 1)]
  | (k2, v) :: rest => if k2 = k then (k2, v + 1) :: rest else (k2, v) :: bump k rest

/-- The `locations` update: create the bucket with count 0 on first sight
(recording the display name), then increment its count. -/
def bumpLoc (key : Int × Int) (name : String) (lat lng : Int) :
    List ((Int × Int) × LocationBucket) → List ((Int × Int) × LocationBucket)
  | [] => [(key, ⟨1, name, lat, lng⟩)]
  | (k2, b) :: rest =>
    if k2 = key then (k2, { b with count := b.count + 1 }) :: rest
    else (k2, b) :: bumpLoc key name lat lng rest

/-- One iteration of the jet-placement `main` loop on the row's
`'JET Prefecture'` field. -/
def jetStep (st : JState) (raw : String) : JState :=
  let st1 : JState := { st with total := st.total + 1 }
  match normalize_prefecture raw with
  | none => st1
  | some p =>
    match lookupAssoc PREFECTURE_COORDS p with
    | none => st1
    | some (lat, lng, name) =>
      { st1 with
        mapped := st1.mapped + 1
        prefectures := bump p st1.prefectures
        locations := bumpLoc (lat, lng) name lat lng st1.locations }

/-- One iteration of the residence `main` loop on the row's `'Address'`
field: the state counter is bumped whenever a state parses, the location
bucket additionally requires `get_coords` to succeed. -/
def residenceStep (st : RState) (address : String) : RState :=
  let st1 : RState := { st with total := st.total + 1 }
  match parse_address address with
  | (_, none, _) => st1
  | (_, some s, zipc) =>
    let st2 : RState :=
      { st1 with parsed := st1.parsed + 1, states := bump s st1.states }
    match get_coords zipc (some s) with
    | none => st2
    | some (lat, lng, name) =>
      { st2 with
        geocoded := st2.geocoded + 1
        locations := bumpLoc (lat, lng) name lat lng st2.locations }

/-- Empty jet-placement aggregation state. -/
def initJ : JState := ⟨0, 0, [], []⟩

/-- Empty residence aggregation state. -/
def initR : RState := ⟨0, 0, 0, [], []⟩

/-- The jet-placement `main` loop over the `'JET Prefecture'` fields of the
input rows. -/
def runJet (rows : List String) : JState := rows.foldl jetStep initJ

/-- The residence `main` loop over the `'Address'` fields of the input
rows. -/
def runResidence (rows : List String) : RState := rows.foldl residenceStep initR

/-! ### Summary reporting -/

/-- The summary expression `mapped*100//total` (resp. `parsed*100//total`):
Python raises `ZeroDivisionError` when `total = 0`, modelled as `none`. -/
def pctFloor (num den : Nat) : Option Nat :=
  if den = 0 then none else some (num * 100 / den)

/-- The descending-count ordering used by `Counter.most_common`. -/
def byCountDesc {α : Type} (a b : α × Nat) : Prop := b.2 ≤ a.2

instance {α : Type} : DecidableRel (@byCountDesc α) :=
  fun a b => inferInstanceAs (Decidable (b.2 ≤ a.2))

instance {α : Type} : IsTotal (α × Nat) byCountDesc :=
  ⟨fun a b => Nat.le_total b.2 a.2⟩

instance {α : Type} : IsTrans (α × Nat) byCountDesc :=
  ⟨fun _ _ _ h1 h2 => Nat.le_trans h2 h1⟩

/-- `Counter.most_common(n)`: items sorted stably by descending count,
first `n` taken.  `heapq.nlargest` is documented as
`sorted(iterable, key=key, reverse=True)[:n]`, a stable descending sort,
which `List.insertionSort byCountDesc` realizes. -/
def most_common {α : Type} (n : Nat) (items : List (α × Nat)) : List (α × Nat) :=
  (List.insertionSort byCountDesc items).take n

/-- `pref_data = list(prefectures.most_common(15))` of `generate_html`. -/
def pref_data (prefectures : List (String × Nat)) : List (String × Nat) :=
  most_common 15 prefectures

/-- Count held by a Counter at a key (0 when absent). -/
def countOf (m : List (String × Nat)) (k : String) : Nat := (lookupAssoc m k).getD 0

/-- Count held by a location bucket at a coordinate key (0 when absent). -/
def bucketCountOf (m : List ((Int × Int) × LocationBucket)) (key : Int × Int) : Nat :=
  match lookupAssoc m key with
  | none => 0
  | some b => b.count

/-- The category label a residence row contributes (its parsed state). -/
def residenceCategory (address : String) : Option String := (parse_address address).2.1

/-- The coordinate bucket a residence row resolves to, if any. -/
def residenceGeoKey (address : String) : Option (Int × Int) :=
  match parse_address address with
  | (_, none, _) => none
  | (_, some s, zipc) => (get_coords zipc (some s)).map (fun e => (e.1, e.2.1))

/-- The category label a jet-placement row contributes (its normalized
prefecture, when present in the coordinates table). -/
def jetCategory (raw : String) : Option String :=
  match normalize_prefecture raw with
  | none => none
  | some p => if (lookupAssoc PREFECTURE_COORDS p).isSome then some p else none

/-- The coordinate bucket a jet-placement row resolves to, if any. -/
def jetGeoKey (raw : String) : Option (Int × Int) :=
  match normalize_prefecture raw with
  | none => none
  | some p => (lookupAssoc PREFECTURE_COORDS p).map (fun e => (e.1, e.2.1))

/-! ### Claim-side formalization helpers -/

/-- The token `st` occurs followed by whitespace and then `zp`, starting at
the head of the list. -/
def tokenThenAt (st zp : List Char) (l : List Char) : Bool :=
  st.isPrefixOf l &&
    (let r := l.drop st.length
     !(r.takeWhile isSpaceChar).isEmpty && zp.isPrefixOf (r.dropWhile isSpaceChar))

/-- The token `st` occurs somewhere, followed by whitespace and then `zp`. -/
def tokenThenSomewhere (st zp : List Char) : List Char → Bool
  | [] => tokenThenAt st zp []
  | c :: t => tokenThenAt st zp (c :: t) || tokenThenSomewhere st zp t

/-- The pattern `\b<st>\s+\d{5}` matches at the head of the list, with
`prev` the character before the head. -/
def stpAt (st : List Char) (prev : Option Char) (l : List Char) : Bool :=
  boundaryOk prev && st.isPrefixOf l && wsThenFiveDigits (l.drop st.length)

/-- The pattern `\b<st>\s+\d{5}` matches somewhere in the list. -/
def stpAux (st : List Char) (prev : Option Char) : List Char → Bool
  | [] => false
  | c :: t => stpAt st prev (c :: t) || stpAux st (some c) t

/-- The pattern `\b<st>\s+\d{5}` matches somewhere in the string. -/
def stpSomewhere (st : String) (u : List Char) : Bool := stpAux st.toList none u


/-! ### Counting lemmas for the aggregation state -/

/-- A `Counter` bump raises the bumped key's count by one and no other. -/
theorem countOf_bump (j k : String) (m : List (String × Nat)) :
    countOf (bump j m) k = countOf m k + (if j = k then 1 else 0) := by
  induction m with
  | nil => by_cases h : j = k <;> simp [bump, countOf, lookupAssoc, h]
  | cons p rest ih =>
    obtain ⟨k2, v⟩ := p
    by_cases h2 : k2 = j
    · subst h2
      by_cases h : k2 = k <;> simp [bump, countOf, lookupAssoc, h]
    · by_cases h : k2 = k
      · subst h
        have hjk : ¬ j = k2 := fun e => h2 e.symm
        simp [bump, countOf, lookupAssoc, h2, hjk]
      · simp only [bump, if_neg h2]
        simp only [countOf, lookupAssoc, if_neg h]
        exact ih

/-- A location bump raises the bumped coordinate's count by one and no
other. -/
theorem bucketCountOf_bumpLoc (kj key : Int × Int) (name : String) (lat lng : Int)
    (m : List ((Int × Int) × LocationBucket)) :
    bucketCountOf (bumpLoc kj name lat lng m) key =
      bucketCountOf m key + (if kj = key then 1 else 0) := by
  induction m with
  | nil => by_cases h : kj = key <;> simp [bumpLoc, bucketCountOf, lookupAssoc, h]
  | cons p rest ih =>
    obtain ⟨k2, b⟩ := p
    by_cases h2 : k2 = kj
    · subst h2
      by_cases h : k2 = key <;> simp [bumpLoc, bucketCountOf, lookupAssoc, h]
    · by_cases h : k2 = key
      · subst h
        have hjk : ¬ kj = k2 := fun e => h2 e.symm
        simp [bumpLoc, bucketCountOf, lookupAssoc, h2, hjk]
      · simp only [bumpLoc, if_neg h2]
        simp only [bucketCountOf, lookupAssoc, if_neg h]
        exact ih

/-- One residence iteration adds the record's category indicator to each
state count. -/
theorem countOf_residenceStep (st : RState) (a k : String) :
    countOf (residenceStep st a).states k =
      countOf st.states k + (if residenceCategory a = some k then 1 else 0) := by
  rcases hp : parse_address a with ⟨c, s, z⟩
  cases s with
  | none => simp [residenceStep, residenceCategory, hp]
  | some s0 =>
    cases hg : get_coords z (some s0) with
    | none =>
      simp only [residenceStep, residenceCategory, hp, hg]
      rw [countOf_bump]
      simp
    | some e =>
      obtain ⟨lat, lng, name⟩ := e
      simp only [residenceStep, residenceCategory, hp, hg]
      rw [countOf_bump]
      simp

/-- One residence iteration adds the record's geo-key indicator to each
bucket count. -/
theorem bucketCountOf_residenceStep (st : RState) (a : String) (key : Int × Int) :
    bucketCountOf (residenceStep st a).locations key =
      bucketCountOf st.locations key + (if residenceGeoKey a = some key then 1 else 0) := by
  rcases hp : parse_address a with ⟨c, s, z⟩
  cases s with
  | none => simp [residenceStep, residenceGeoKey, hp]
  | some s0 =>
    cases hg : get_coords z (some s0) with
    | none => simp [residenceStep, residenceGeoKey, hp, hg]
    | some e =>
      obtain ⟨lat, lng, name⟩ := e
      simp only [residenceStep, residenceGeoKey, hp, hg]
      rw [bucketCountOf_bumpLoc]
      simp

/-- One jet iteration adds the record's category indicator to each
prefecture count. -/
theorem countOf_jetStep (st : JState) (r k : String) :
    countOf (jetStep st r).prefectures k =
      countOf st.prefectures k + (if jetCategory r = some k then 1 else 0) := by
  cases hn : normalize_prefecture r with
  | none => simp [jetStep, jetCategory, hn]
  | some p =>
    cases hl : lookupAssoc PREFECTURE_COORDS p with
    | none => simp [jetStep, jetCategory, hn, hl]
    | some e =>
      obtain ⟨lat, lng, name⟩ := e
      simp only [jetStep, jetCategory, hn, hl]
      rw [countOf_bump]
      simp

/-- One jet iteration adds the record's geo-key indicator to each bucket
count. -/
theorem bucketCountOf_jetStep (st : JState) (r : String) (key : Int × Int) :
    bucketCountOf (jetStep st r).locations key =
      bucketCountOf st.locations key + (if jetGeoKey r = some key then 1 else 0) := by
  cases hn : normalize_prefecture r with
  | none => simp [jetStep, jetGeoKey, hn]
  | some p =>
    cases hl : lookupAssoc PREFECTURE_COORDS p with
    | none => simp [jetStep, jetGeoKey, hn, hl]
    | some e =>
      obtain ⟨lat, lng, name⟩ := e
      simp only [jetStep, jetGeoKey, hn, hl]
      rw [bucketCountOf_bumpLoc]
      simp

/-- Folding the residence loop counts, per state, the records whose parsed
category is that state. -/
theorem countOf_foldl_residence (k : String) (l : List String) :
    ∀ st : RState, countOf (l.foldl residenceStep st).states k =
      countOf st.states k + l.countP (fun a => residenceCategory a == some k) := by
  induction l with
  | nil => intro st; simp
  | cons a t ih =>
    intro st
    simp only [List.foldl_cons, List.countP_cons]
    rw [ih, countOf_residenceStep]
    by_cases h : residenceCategory a = some k
    · simp [h]; omega
    · simp [h]

/-- Folding the residence loop counts, per coordinate, the records that
geocode to it. -/
theorem bucketCountOf_foldl_residence (key : Int × Int) (l : List String) :
    ∀ st : RState, bucketCountOf (l.foldl residenceStep st).locations key =
      bucketCountOf st.locations key + l.countP (fun a => residenceGeoKey a == some key) := by
  induction l with
  | nil => intro st; simp
  | cons a t ih =>
    intro st
    simp only [List.foldl_cons, List.countP_cons]
    rw [ih, bucketCountOf_residenceStep]
    by_cases h : residenceGeoKey a = some key
    · simp [h]; omega
    · simp [h]

/-- Folding the jet loop counts, per prefecture, the records normalizing to
it. -/
theorem countOf_foldl_jet (k : String) (l : List String) :
    ∀ st : JState, countOf (l.foldl jetStep st).prefectures k =
      countOf st.prefectures k + l.countP (fun a => jetCategory a == some k) := by
  induction l with
  | nil => intro st; simp
  | cons a t ih =>
    intro st
    simp only [List.foldl_cons, List.countP_cons]
    rw [ih, countOf_jetStep]
    by_cases h : jetCategory a = some k
    · simp [h]; omega
    · simp [h]

/-- Folding the jet loop counts, per coordinate, the records resolving to
it. -/
theorem bucketCountOf_foldl_jet (key : Int × Int) (l : List String) :
    ∀ st : JState, bucketCountOf (l.foldl jetStep st).locations key =
      bucketCountOf st.locations key + l.countP (fun a => jetGeoKey a == some key) := by
  induction l with
  | nil => intro st; simp
  | cons a t ih =>
    intro st
    simp only [List.foldl_cons, List.countP_cons]
    rw [ih, bucketCountOf_jetStep]
    by_cases h : jetGeoKey a = some key
    · simp [h]; omega
    · simp [h]

/-! ### Scanner and normalizer lemmas -/

/-- A successful `stateScan` returns a 2-character token and certifies an
occurrence of the pattern `\b<token>\s+\d{5}`. -/
theorem stateScan_stp (l : List Char) : ∀ (prev : Option Char) (t : List Char),
    stateScan prev l = some t → t.length = 2 ∧ stpAux t prev l = true := by
  induction l with
  | nil => intro prev t h; simp [stateScan] at h
  | cons a l2 ih =>
    intro prev t h
    cases l2 with
    | nil => simp [stateScan] at h
    | cons b rest =>
      by_cases hc :
          (boundaryOk prev && isUpperAZ a && isUpperAZ b && wsThenFiveDigits rest) = true
      · rw [stateScan, if_pos hc] at h
        obtain ⟨rfl⟩ : [a, b] = t := by injection h
        refine ⟨rfl, ?_⟩
        have hstep : stpAux [a, b] prev (a :: b :: rest) =
            (stpAt [a, b] prev (a :: b :: rest) || stpAux [a, b] (some a) (b :: rest)) := rfl
        rw [hstep, Bool.or_eq_true]
        left
        simp only [Bool.and_eq_true] at hc
        obtain ⟨⟨⟨h1, _⟩, _⟩, h4⟩ := hc
        simp only [stpAt, Bool.and_eq_true]
        refine ⟨⟨h1, ?_⟩, ?_⟩
        · simp [List.isPrefixOf]
        · simpa using h4
      · rw [stateScan, if_neg hc] at h
        obtain ⟨hlen, haux⟩ := ih (some a) t h
        refine ⟨hlen, ?_⟩
        have hstep : stpAux t prev (a :: b :: rest) =
            (stpAt t prev (a :: b :: rest) || stpAux t (some a) (b :: rest)) := rfl
        rw [hstep, Bool.or_eq_true]
        right
        exact haux

/-- A successful association-list lookup certifies membership. -/
theorem lookupAssoc_mem {α β : Type} [DecidableEq α] (l : List (α × β)) (k : α) (v : β)
    (h : lookupAssoc l k = some v) : (k, v) ∈ l := by
  induction l with
  | nil => simp [lookupAssoc] at h
  | cons p rest ih =>
    obtain ⟨k2, v2⟩ := p
    by_cases e : k2 = k
    · subst e
      simp [lookupAssoc] at h
      subst h
      exact List.mem_cons_self _ _
    · simp only [lookupAssoc, if_neg e] at h
      exact List.mem_cons_of_mem _ (ih h)

/-- A key occurring among the firsts of an association list is found. -/
theorem lookupAssoc_isSome_of_mem_fst {α β : Type} [DecidableEq α]
    (l : List (α × β)) (k : α) (h : k ∈ l.map Prod.fst) :
    (lookupAssoc l k).isSome := by
  induction l with
  | nil => simp at h
  | cons p rest ih =>
    obtain ⟨k2, v2⟩ := p
    by_cases e : k2 = k
    · simp [lookupAssoc, e]
    · simp only [lookupAssoc, if_neg e]
      simp only [List.map_cons, List.mem_cons] at h
      rcases h with h | h
      · exact absurd h.symm e
      · exact ih h

/-- The containment loop only returns keys of the list it iterates. -/
theorem firstContain_mem (p : List Char) (ks : List String) (k : String)
    (h : firstContain p ks = some k) : k ∈ ks := by
  induction ks with
  | nil => simp [firstContain] at h
  | cons k2 rest ih =>
    rw [firstContain] at h
    split at h
    · injection h with h2
      subst h2
      exact List.mem_cons_self _ _
    · exact List.mem_cons_of_mem _ (ih h)

/-- Every alias value is a key of the prefecture coordinates table. -/
theorem aliases_into_coords :
    PREFECTURE_ALIASES.all (fun kv => (lookupAssoc PREFECTURE_COORDS kv.2).isSome) = true := by
  decide

/-- A normalized prefecture is always a key of the coordinates table, so
the `pref in PREFECTURE_COORDS` guard of the jet loop never fails on a
normalized value. -/
theorem normalize_prefecture_coord_isSome (raw p : String)
    (h : normalize_prefecture raw = some p) :
    (lookupAssoc PREFECTURE_COORDS p).isSome := by
  rw [normalize_prefecture] at h
  split at h
  · exact absurd h (by simp)
  · cases ha : lookupAssoc PREFECTURE_ALIASES
        (String.mk (stripQuotes (pythonStrip raw.toList))) with
    | none =>
      rw [ha] at h
      exact lookupAssoc_isSome_of_mem_fst _ _ (firstContain_mem _ _ _ h)
    | some v =>
      rw [ha] at h
      simp only [Option.some.injEq] at h
      subst h
      exact List.all_eq_true.mp aliases_into_coords _ (lookupAssoc_mem _ _ _ ha)

/-- Stripping whitespace from an all-whitespace list yields the empty
list. -/
theorem pythonStrip_eq_nil (l : List Char) (h : l.all isSpaceChar = true) :
    pythonStrip l = [] := by
  have h1 : l.dropWhile isSpaceChar = [] := by
    rw [List.dropWhile_eq_nil_iff]
    exact fun x hx => List.all_eq_true.mp h x hx
  simp [pythonStrip, stripBoth, h1]

/-- A successful `stateScan` saw an uppercase letter somewhere in its
input. -/
theorem stateScan_mem_upper (l : List Char) : ∀ (prev : Option Char) (t : List Char),
    stateScan prev l = some t → ∃ c, c ∈ l ∧ isUpperAZ c = true := by
  induction l with
  | nil => intro prev t h; simp [stateScan] at h
  | cons a l2 ih =>
    intro prev t h
    cases l2 with
    | nil => simp [stateScan] at h
    | cons b rest =>
      by_cases hc :
          (boundaryOk prev && isUpperAZ a && isUpperAZ b && wsThenFiveDigits rest) = true
      · simp only [Bool.and_eq_true] at hc
        exact ⟨a, List.mem_cons_self _ _, hc.1.1.2⟩
      · rw [stateScan, if_neg hc] at h
        obtain ⟨c, hm, hu⟩ := ih (some a) t h
        exact ⟨c, List.mem_cons_of_mem _ hm, hu⟩

/-- If stripping whitespace empties a list, all its characters were
whitespace. -/
theorem mem_space_of_pythonStrip_eq_nil (l : List Char) (h : pythonStrip l = [])
    (c : Char) (hc : c ∈ l) : isSpaceChar c = true := by
  simp only [pythonStrip, stripBoth, List.reverse_eq_nil_iff] at h
  have h1 : ∀ x ∈ l.dropWhile isSpaceChar, isSpaceChar x = true := by
    intro x hx
    exact List.dropWhile_eq_nil_iff.mp h x (List.mem_reverse.mpr hx)
  have hsplit := List.takeWhile_append_dropWhile (p := isSpaceChar) (l := l)
  rcases List.mem_append.mp (hsplit ▸ hc) with h2 | h2
  · exact List.mem_takeWhile_imp h2
  · exact h1 _ h2

/-- Uppercasing a whitespace character never yields an uppercase letter. -/
theorem isUpperAZ_toUpper_of_space (c : Char) (h : isSpaceChar c = true) :
    isUpperAZ (Char.toUpper c) = false := by
  simp only [isSpaceChar, Bool.or_eq_true, beq_iff_eq] at h
  rcases h with ((((h | h) | h) | h) | h) | h <;> subst h <;> decide

/-- A successful `stateScan` rules out the empty-address early return of
the parser. -/
theorem stateScan_nonempty (s : String) (t : List Char)
    (hsc : stateScan none (s.toList.map Char.toUpper) = some t) :
    ¬(s = "" ∨ pythonStrip s.toList = []) := by
  intro he
  obtain ⟨cu, hmem, hup⟩ := stateScan_mem_upper _ none t hsc
  rcases he with he | he
  · subst he
    have hnil : ("" : String).toList = [] := rfl
    rw [hnil] at hmem
    simp at hmem
  · obtain ⟨c0, hc0, rfl⟩ := List.mem_map.mp hmem
    have hsp := mem_space_of_pythonStrip_eq_nil _ he c0 hc0
    rw [isUpperAZ_toUpper_of_space c0 hsp] at hup
    exact Bool.false_ne_true hup

/-! ### Claim theorems -/

set_option maxRecDepth 40000

set_option maxHeartbeats 1000000 in
/-- C1: on an empty input source both pipelines leave every aggregate at
zero/empty, but the summary percentage `mapped*100//total` (resp.
`parsed*100//total`) divides by zero — a `ZeroDivisionError`, modelled by
`pctFloor … = none` — and the jet report additionally indexes
`most_common(1)[0]` of an empty Counter (an `IndexError`, modelled by
`head? = none`); the run does not reach the claimed defined resolution
rate of 0. -/
theorem empty_input_aggregates_zero_but_summary_crashes :
    (runJet []).total = 0 ∧ (runJet []).mapped = 0 ∧
    (runJet []).prefectures = [] ∧ (runJet []).locations = [] ∧
    pctFloor (runJet []).mapped (runJet []).total = none ∧
    (most_common 1 (runJet []).prefectures).head? = none ∧
    (runResidence []).total = 0 ∧ (runResidence []).parsed = 0 ∧
    (runResidence []).geocoded = 0 ∧ (runResidence []).states = [] ∧
    (runResidence []).locations = [] ∧
    pctFloor (runResidence []).parsed (runResidence []).total = none := by
  decide

set_option maxHeartbeats 1000000 in
/-- C2 counterexample: the keys "932" and "933" of ZIP_COORDS are distinct
yet carry the same coordinate pair, refuting the claimed uniqueness
invariant of the gazetteer (and no startup check exists to reject it). -/
theorem zip_gazetteer_coordinate_collision :
    lookupAssoc ZIP_COORDS "932" = some (353733, -1190187, "Bakersfield") ∧
    lookupAssoc ZIP_COORDS "933" = some (353733, -1190187, "Bakersfield") ∧
    ("932" : String) ≠ "933" := by
  decide

set_option maxHeartbeats 4000000 in
/-- C2 amended: in the jet gazetteer (PREFECTURE_COORDS) distinct keys do
carry distinct coordinate pairs, but in the US gazetteer (ZIP_COORDS)
distinct keys may share a pair and nothing rejects this at startup:
records resolving through such keys silently merge into one bucket, as the
two Fresno-prefix addresses below show. -/
theorem gazetteer_uniqueness_amended :
    (PREFECTURE_COORDS.map (fun e => (e.2.1, e.2.2.1))).Nodup ∧
    lookupAssoc ZIP_COORDS "934" = lookupAssoc ZIP_COORDS "935" ∧
    ("934" : String) ≠ "935" ∧
    bucketCountOf
      (runResidence ["1 A St Fresno CA 93401", "2 B St Fresno CA 93501"]).locations
      (367378, -1197871) = 2 := by
  refine ⟨by decide, by decide, by decide, by decide⟩

set_option maxHeartbeats 4000000 in
/-- C3: the scenario address parses to city "Los Angeles", state "CA",
zip "90012"; the resolver returns the exact fine-grained ZIP_COORDS entry
for 90012 (not the coarse "900" prefix entry); and after processing the one
record the bucket at that coordinate holds 1 and the "CA" category holds
1. -/
theorem scenario_downtown_la_record :
    parse_address "123 Main St, Los Angeles CA 90012" =
      (some "Los Angeles", some "CA", some "90012") ∧
    get_coords (some "90012") (some "CA") =
      some (340622, -1182406, "Chinatown/Civic Center") ∧
    lookupAssoc ZIP_COORDS "90012" = some (340622, -1182406, "Chinatown/Civic Center") ∧
    get_coords (some "90012") (some "CA") ≠ lookupAssoc ZIP_COORDS "900" ∧
    countOf (runResidence ["123 Main St, Los Angeles CA 90012"]).states "CA" = 1 ∧
    bucketCountOf (runResidence ["123 Main St, Los Angeles CA 90012"]).locations
      (340622, -1182406) = 1 := by
  refine ⟨by decide, by decide, by decide, by decide, by decide, by decide⟩

set_option maxHeartbeats 1000000 in
/-- C4 counterexample: for the address "CA 123456 WA 67890" the parser
returns state "CA" and postal code "67890" (the first word-bounded 5-digit
token), yet "CA" is nowhere in the string followed by whitespace and
"67890" — the returned state code does not sit immediately before the
extracted postal code, because the state pattern `[A-Z]{2}\s+\d{5}` has no
trailing word boundary and here matches the "123456" run. -/
theorem state_not_before_extracted_zip :
    parse_address "CA 123456 WA 67890" = (none, some "CA", some "67890") ∧
    tokenThenSomewhere "CA".toList "67890".toList "CA 123456 WA 67890".toList = false := by
  refine ⟨by decide, by decide⟩

/-- C4 amended: the parser's state_code is fully characterized by the first
match of `\\b[A-Z]{2}\\s+\\d{5}` in the uppercased address (whose five digits
need not be the extracted postal code): a returned state code is exactly the
2-letter token of that first match, belongs to STATE_ABBREV, and realizes
the pattern; conversely a first-match token that is in STATE_ABBREV is
returned as the state code, and one that is not yields state none even
though a token was found. -/
theorem state_code_extraction_amended (s : String) (c : Option String) (st : String)
    (zp : Option String) :
    (parse_address s = (c, some st, zp) →
      st.length = 2 ∧ (lookupAssoc STATE_ABBREV st).isSome ∧
      stateScan none (s.toList.map Char.toUpper) = some st.toList ∧
      stpSomewhere st (s.toList.map Char.toUpper) = true) ∧
    (∀ t : List Char, stateScan none (s.toList.map Char.toUpper) = some t →
      (lookupAssoc STATE_ABBREV (String.mk t)).isSome →
      (parse_address s).2.1 = some (String.mk t)) ∧
    (∀ t : List Char, stateScan none (s.toList.map Char.toUpper) = some t →
      lookupAssoc STATE_ABBREV (String.mk t) = none →
      (parse_address s).2.1 = none) := by
  refine ⟨?_, ?_, ?_⟩
  · intro hp
    by_cases he : (s = "" ∨ pythonStrip s.toList = [])
    · rw [parse_address, if_pos he] at hp
      exact absurd (congrArg (fun x => x.2.1) hp) (by simp)
    · rw [parse_address, if_neg he] at hp
      have hst : stateOf s.toList = some st := by
        have h2 := congrArg (fun x => x.2.1) hp
        simpa using h2
      rw [stateOf] at hst
      cases hsc : stateScan none (s.toList.map Char.toUpper) with
      | none => rw [hsc] at hst; simp at hst
      | some t =>
        rw [hsc] at hst
        have hst2 : (if (lookupAssoc STATE_ABBREV (String.mk t)).isSome then
            some (String.mk t) else none) = some st := hst
        by_cases hv : (lookupAssoc STATE_ABBREV (String.mk t)).isSome
        · rw [if_pos hv] at hst2
          have hts : String.mk t = st := by simpa using hst2
          obtain ⟨hlen, haux⟩ := stateScan_stp _ none t hsc
          subst hts
          refine ⟨hlen, hv, rfl, haux⟩
        · rw [if_neg hv] at hst2
          simp at hst2
  · intro t hsc hv
    rw [parse_address, if_neg (stateScan_nonempty s t hsc)]
    show stateOf s.toList = some (String.mk t)
    rw [stateOf, hsc]
    show (if (lookupAssoc STATE_ABBREV (String.mk t)).isSome then
      some (String.mk t) else none) = some (String.mk t)
    rw [if_pos hv]
  · intro t hsc hnone
    by_cases he : (s = "" ∨ pythonStrip s.toList = [])
    · rw [parse_address, if_pos he]
    · rw [parse_address, if_neg he]
      show stateOf s.toList = none
      rw [stateOf, hsc]
      show (if (lookupAssoc STATE_ABBREV (String.mk t)).isSome then
        some (String.mk t) else none) = none
      rw [hnone]
      simp

set_option maxRecDepth 40000 in
/-- Witness for the amended C4 statement at a concrete address, exercising
both the characterization of a returned state and the pinning direction. -/
theorem state_code_extraction_amended_witness :
    parse_address "1 A St, Reno NV 89501" = (some "Reno", some "NV", some "89501") ∧
    ("NV" : String).length = 2 ∧ (lookupAssoc STATE_ABBREV "NV").isSome ∧
    stateScan none ("1 A St, Reno NV 89501".toList.map Char.toUpper) = some "NV".toList ∧
    stpSomewhere "NV" ("1 A St, Reno NV 89501".toList.map Char.toUpper) = true ∧
    (parse_address "1 A St, Reno NV 89501").2.1 = some (String.mk "NV".toList) := by
  have h := (state_code_extraction_amended "1 A St, Reno NV 89501"
    (some "Reno") "NV" (some "89501")).1 (by decide)
  have h2 := (state_code_extraction_amended "1 A St, Reno NV 89501"
    (some "Reno") "NV" (some "89501")).2.1 "NV".toList (by decide) (by decide)
  exact ⟨by decide, h.1, h.2.1, h.2.2.1, h.2.2.2, h2⟩

/-- C5: the postal resolver returns Unresolved on a missing code, the
exact fine-grained entry whenever the 5-digit code is a key (never the
prefix fallback), the coarse 3-digit-prefix entry when the exact code is
absent but the prefix is a key, and Unresolved otherwise. -/
theorem get_coords_resolution (z : String) (st : Option String) (e : Int × Int × String) :
    get_coords none st = none ∧
    (z.length = 5 → lookupAssoc ZIP_COORDS z = some e → get_coords (some z) st = some e) ∧
    (z.length = 5 → lookupAssoc ZIP_COORDS z = none →
      lookupAssoc ZIP_COORDS (String.mk (z.toList.take 3)) = some e →
      get_coords (some z) st = some e) ∧
    (z.length = 5 → lookupAssoc ZIP_COORDS z = none →
      lookupAssoc ZIP_COORDS (String.mk (z.toList.take 3)) = none →
      get_coords (some z) st = none) := by
  have hne : z.length = 5 → ¬ z = "" := by
    intro hlen hz
    subst hz
    simp at hlen
  refine ⟨rfl, ?_, ?_, ?_⟩
  · intro hlen h1
    rw [get_coords, if_neg (hne hlen), h1]
  · intro hlen h1 h2
    rw [get_coords, if_neg (hne hlen), h1, h2]
  · intro hlen h1 h2
    rw [get_coords, if_neg (hne hlen), h1, h2]

set_option maxHeartbeats 1000000 in
/-- Witness for C5 at the concrete code 92888: absent exactly, resolved
through its prefix 928. -/
theorem get_coords_resolution_witness :
    ("92888" : String).length = 5 ∧
    lookupAssoc ZIP_COORDS "92888" = none ∧
    lookupAssoc ZIP_COORDS (String.mk ("92888".toList.take 3)) =
      some (338366, -1179143, "Anaheim/Fullerton") ∧
    get_coords (some "92888") none = some (338366, -1179143, "Anaheim/Fullerton") := by
  refine ⟨by decide, by decide, by decide, ?_⟩
  exact (get_coords_resolution "92888" none _).2.2.1 (by decide) (by decide) (by decide)

/-- C6: the empty string, any all-whitespace string, and the literal
sentinel "N/A" all normalize to Unresolved; `normalize_prefecture` is a
pure function, so no side effect occurs. -/
theorem normalize_prefecture_sentinels (s : String) :
    normalize_prefecture "" = none ∧
    normalize_prefecture "N/A" = none ∧
    (s.toList.all isSpaceChar = true → normalize_prefecture s = none) := by
  refine ⟨by decide, by decide, ?_⟩
  intro h
  rw [normalize_prefecture, if_pos (Or.inr (Or.inl (pythonStrip_eq_nil _ h)))]

/-- Witness for C6 at the all-whitespace string. -/
theorem normalize_prefecture_sentinels_witness :
    (("   " : String).toList.all isSpaceChar = true) ∧
    normalize_prefecture "   " = none :=
  ⟨by decide, (normalize_prefecture_sentinels "   ").2.2 (by decide)⟩

/-- C7: in the residence pipeline the state category is bumped whenever a
state parses, whatever `get_coords` then returns; the concrete record with
state "CA" and unresolvable zip 99999 lands in the category histogram and
in no bucket; and in the jet pipeline a normalized prefecture always bumps
its category (the coordinates-table guard never fails on it, so there the
two axes coincide). -/
theorem category_axis_independent :
    (∀ (st : RState) (a s : String),
      (parse_address a).2.1 = some s →
      (residenceStep st a).states = bump s st.states) ∧
    ((runResidence ["Los Angeles CA 99999"]).states = [("CA", 1)] ∧
      (runResidence ["Los Angeles CA 99999"]).locations = []) ∧
    (∀ (st : JState) (r p : String),
      normalize_prefecture r = some p →
      (jetStep st r).prefectures = bump p st.prefectures ∧
      (jetStep st r).mapped = st.mapped + 1) := by
  refine ⟨?_, ⟨by decide, by decide⟩, ?_⟩
  · intro st a s h
    rcases hp : parse_address a with ⟨c, s2, z⟩
    rw [hp] at h
    simp only at h
    subst h
    cases hg : get_coords z (some s) with
    | none => simp [residenceStep, hp, hg]
    | some e =>
      obtain ⟨lat, lng, name⟩ := e
      simp [residenceStep, hp, hg]
  · intro st r p h
    have hs := normalize_prefecture_coord_isSome r p h
    cases hl : lookupAssoc PREFECTURE_COORDS p with
    | none => rw [hl] at hs; simp at hs
    | some e =>
      obtain ⟨lat, lng, name⟩ := e
      constructor <;> simp [jetStep, h, hl]

set_option maxHeartbeats 1000000 in
/-- Witness for C7: concrete category bumps in both pipelines. -/
theorem category_axis_independent_witness :
    (parse_address "12 Grand Ave, Phoenix AZ 85001").2.1 = some "AZ" ∧
    (residenceStep initR "12 Grand Ave, Phoenix AZ 85001").states = bump "AZ" initR.states ∧
    normalize_prefecture "Okinawa" = some "Okinawa" ∧
    (jetStep initJ "Okinawa").prefectures = bump "Okinawa" initJ.prefectures := by
  refine ⟨by decide, ?_, by decide, ?_⟩
  · exact category_axis_independent.1 initR _ "AZ" (by decide)
  · exact (category_axis_independent.2.2 initJ "Okinawa" "Okinawa" (by decide)).1

/-- C8: two record streams that are permutations of each other produce the
same final count at every category key and every coordinate bucket, in both
pipelines. -/
theorem aggregation_order_independent (l1 l2 : List String) (hp : l1.Perm l2) :
    (∀ k, countOf (runResidence l1).states k = countOf (runResidence l2).states k) ∧
    (∀ key, bucketCountOf (runResidence l1).locations key
        = bucketCountOf (runResidence l2).locations key) ∧
    (∀ k, countOf (runJet l1).prefectures k = countOf (runJet l2).prefectures k) ∧
    (∀ key, bucketCountOf (runJet l1).locations key
        = bucketCountOf (runJet l2).locations key) := by
  refine ⟨fun k => ?_, fun key => ?_, fun k => ?_, fun key => ?_⟩
  · rw [runResidence, runResidence, countOf_foldl_residence, countOf_foldl_residence,
      hp.countP_eq]
  · rw [runResidence, runResidence, bucketCountOf_foldl_residence,
      bucketCountOf_foldl_residence, hp.countP_eq]
  · rw [runJet, runJet, countOf_foldl_jet, countOf_foldl_jet, hp.countP_eq]
  · rw [runJet, runJet, bucketCountOf_foldl_jet, bucketCountOf_foldl_jet, hp.countP_eq]

set_option maxHeartbeats 1000000 in
/-- Witness for C8 on a concrete two-record swap. -/
theorem aggregation_order_independent_witness :
    (["Nagano", "Ehime"] : List String).Perm ["Ehime", "Nagano"] ∧
    countOf (runJet ["Nagano", "Ehime"]).prefectures "Nagano"
      = countOf (runJet ["Ehime", "Nagano"]).prefectures "Nagano" :=
  ⟨List.Perm.swap "Ehime" "Nagano" [],
    (aggregation_order_independent _ _ (List.Perm.swap "Ehime" "Nagano" [])).2.2.1 "Nagano"⟩

/-- C9: `most_common` lists entries in descending count order, and a pair
of equal-count entries keeps its first-seen (insertion) relative order in
the full stable sort, of which the top-N output is the prefix; `pref_data`
of the jet report is `most_common 15`. -/
theorem most_common_ranking (n : Nat) (h : List (String × Nat)) (a b : String × Nat) :
    (most_common n h).Sorted byCountDesc ∧
    (a.2 = b.2 → [a, b].Sublist h → [a, b].Sublist (List.insertionSort byCountDesc h)) ∧
    most_common n h = (List.insertionSort byCountDesc h).take n ∧
    pref_data h = most_common 15 h := by
  refine ⟨?_, ?_, rfl, rfl⟩
  · exact List.Pairwise.sublist (List.take_sublist n _) (List.sorted_insertionSort byCountDesc h)
  · intro he hsub
    refine List.pair_sublist_insertionSort ?_ hsub
    show byCountDesc a b
    rw [byCountDesc, he]

/-- Witness for C9: a concrete histogram with a tie, stably ranked. -/
theorem most_common_ranking_witness :
    ((("AA", 3) : String × Nat).2 = (("CC", 3) : String × Nat).2) ∧
    [(("AA", 3) : String × Nat), ("CC", 3)].Sublist [("AA", 3), ("BB", 5), ("CC", 3)] ∧
    [(("AA", 3) : String × Nat), ("CC", 3)].Sublist
      (List.insertionSort byCountDesc [("AA", 3), ("BB", 5), ("CC", 3)]) :=
  ⟨rfl, by decide,
    (most_common_ranking 2 [("AA", 3), ("BB", 5), ("CC", 3)] ("AA", 3) ("CC", 3)).2.1
      rfl (by decide)⟩

/-- C10: `get_coords` never inspects its `state` argument, so its result is
a function of the zip code and the static table alone. -/
theorem get_coords_state_independent (z s1 s2 : Option String) :
    get_coords z s1 = get_coords z s2 := rfl

end Heatmap
